import Mathlib

/-!
Shallow embedding of the PDFObject-style library in `src/pdfo.ts` (exports
`embed` and `supportsPDFs`), together with theorems checking the
natural-language specification against it.

Modelling conventions:
* JS scalar values that can appear in `pdfOpenParams` / `page` are `JSValue`.
* `Record<string, unknown>` objects are insertion-ordered association lists
  (JS `for .. in` enumeration order for the string keys used here).
* The ambient browser environment (`navigator`, `window`, `Promise`) is an
  explicit `Environment` record passed to every function that reads it.
* The DOM is a map from element references to `ContainerState`; setting
  `innerHTML` stores the assigned markup as a single `htmlBlob` child.
* `embed` returns an `EmbedResult` carrying the new DOM, the console log
  lines, and the caller-visible final value of the options record (the
  source mutates the caller's `pdfOpenParams` object in place).
-/

namespace Pdfo

/-- A JS scalar value (string, number, or boolean). -/
inductive JSValue where
  | str (s : String)
  | num (n : Int)
  | bool (b : Bool)
deriving DecidableEq

/-- JS `String(v)` for a `JSValue`. -/
def jsString : JSValue → String
  | JSValue.str s => s
  | JSValue.num n => toString n
  | JSValue.bool b => if b then "true" else "false"

/-- JS truthiness of a `JSValue`. -/
def jsTruthy : JSValue → Bool
  | JSValue.str s => !(s == "")
  | JSValue.num n => !(n == 0)
  | JSValue.bool b => b

/-- JS `x || dflt` for an optional string `x` (the empty string is falsy). -/
def jsOrDefault (o : Option String) (dflt : String) : String :=
  match o with
  | some s => if s == "" then dflt else s
  | none => dflt

/-- JS truthiness of a string-or-boolean value (used for `fallbackLink`). -/
def sumTruthy : Sum String Bool → Bool
  | Sum.inl s => !(s == "")
  | Sum.inr b => b

/-- Whether `pat` is a prefix of `l` (character lists). -/
def isPre : List Char → List Char → Bool
  | [], _ => true
  | _ :: _, [] => false
  | a :: as, b :: bs => a == b && isPre as bs

/-- Whether `pat` occurs as a contiguous sublist of `l`. -/
def listHasSub (pat : List Char) : List Char → Bool
  | [] => isPre pat []
  | c :: t => isPre pat (c :: t) || listHasSub pat (t)

/-- Model of JS `/pat/.test(s)` for a literal pattern: substring test. -/
def strContains (s pat : String) : Bool :=
  listHasSub pat.data s.data

/-- JS GetSubstitution for one match of a group-free literal pattern:
    expands the replacement text at a match of `matched` found at index
    `position` of the original string `strOrig`.  The dollar escapes are:
    a doubled dollar yields one dollar; dollar-ampersand yields the matched
    text; dollar followed by the character with code 96 yields the part of
    the original string before the match; dollar-apostrophe (code 39)
    yields the part after the match.  Every other dollar sequence — digits
    (the pattern has no capture groups), a named-group reference (no named
    groups), or a trailing dollar — stays literal, as in JS. -/
def substLoop (matched strOrig : List Char) (position : Nat) :
    List Char → List Char
  | [] => []
  | [c] => [c]
  | c :: d :: t =>
    if c == '$' then
      if d == '$' then
        '$' :: substLoop matched strOrig position t
      else if d == '&' then
        matched ++ substLoop matched strOrig position t
      else if d == Char.ofNat 96 then
        strOrig.take position ++ substLoop matched strOrig position t
      else if d == Char.ofNat 39 then
        strOrig.drop (position + matched.length) ++ substLoop matched strOrig position t
      else
        c :: substLoop matched strOrig position (d :: t)
    else
      c :: substLoop matched strOrig position (d :: t)

/-- Replace every (leftmost, non-overlapping) occurrence of `pat` by the
    GetSubstitution expansion of `rep`, with explicit fuel so that the
    recursion is structural.  `strOrig` is the whole original string and
    `pos` the index of the current suffix in it (GetSubstitution reads the
    before/after context from the original string at each match).  Fuel
    equal to the length of the list always suffices, since every step
    consumes at least one character. -/
def replaceLoop (pat rep strOrig : List Char) : Nat → Nat → List Char → List Char
  | _, _, [] => []
  | 0, _, l => l
  | Nat.succ n, pos, c :: t =>
    if isPre pat (c :: t) then
      substLoop pat strOrig pos rep ++
        replaceLoop pat rep strOrig n (pos + pat.length) (List.drop (pat.length - 1) t)
    else
      c :: replaceLoop pat rep strOrig n (pos + 1) t

/-- Model of JS `s.replace(/pat/g, rep)` for a group-free literal pattern
    `pat`, including the GetSubstitution handling of dollar escapes in the
    replacement string (see `substLoop`). -/
def jsReplaceAll (s pat rep : String) : String :=
  String.mk (replaceLoop pat.data rep.data s.data s.data.length 0 s.data)

/-- The sixteen uppercase hexadecimal digits. -/
def hexChars : List Char :=
  ['0', '1', '2', '3', '4', '5', '6', '7', '8', '9', 'A', 'B', 'C', 'D', 'E', 'F']

/-- Hexadecimal digit for `n < 16`. -/
def hexDigit (n : Nat) : Char :=
  hexChars.getD n '0'

/-- The characters of a percent-escape for one byte value. -/
def percentChars (n : Nat) : List Char :=
  ['%', hexDigit (n / 16), hexDigit (n % 16)]

/-- The UTF-8 bytes (as `Nat`s) of a character, as percent-encoded by
    `encodeURIComponent`. -/
def utf8Bytes (c : Char) : List Nat :=
  let n := c.toNat
  if n < 0x80 then [n]
  else if n < 0x800 then [0xC0 + n / 0x40, 0x80 + n % 0x40]
  else if n < 0x10000 then
    [0xE0 + n / 0x1000, 0x80 + (n / 0x40) % 0x40, 0x80 + n % 0x40]
  else
    [0xF0 + n / 0x40000, 0x80 + (n / 0x1000) % 0x40, 0x80 + (n / 0x40) % 0x40, 0x80 + n % 0x40]

/-- The characters `encodeURIComponent` leaves unescaped: ASCII
    alphanumerics and `-_.!~*()` together with the apostrophe
    (code point 39). -/
def uriUnreservedChar (c : Char) : Bool :=
  c.isAlphanum || ("-_.!~*()".data).contains c || c.toNat == 39

/-- The characters emitted by `encodeURIComponent` for one input character. -/
def encCharList (c : Char) : List Char :=
  if uriUnreservedChar c then [c] else (utf8Bytes c).flatMap percentChars

/-- Model of JS `encodeURIComponent`. -/
def encodeURIComponent (s : String) : String :=
  String.mk (s.data.flatMap encCharList)

/-- The encoded `key=value` text of one parameter pair (specification-side
    helper used to state properties of `buildURLFragmentString`). -/
def encPair (p : String × JSValue) : String :=
  encodeURIComponent p.1 ++ "=" ++ encodeURIComponent (jsString p.2)

/-- `&`-join of a list of strings (specification-side helper). -/
def ampJoin : List String → String
  | [] => ""
  | [x] => x
  | x :: y :: t => x ++ "&" ++ ampJoin (y :: t)

/-- The concatenation `pair1& pair2& ... pairN&` accumulated by the loop of
    `buildURLFragmentString` (proof-side helper). -/
def fragBody : List (String × JSValue) → String
  | [] => ""
  | p :: t => encPair p ++ "&" ++ fragBody t

/-- JS `s.slice(0, s.length - 1)` for the strings arising in
    `buildURLFragmentString` (the last character is always the one-code-unit
    character `&`, so the slice removes exactly the final character). -/
def jsDropLast (s : String) : String :=
  String.mk s.data.dropLast

/-- Translation of `buildURLFragmentString` (src/pdfo.ts lines 201-225).
    The `if (pdfParams)` guard of the source is vacuous here: the argument
    is always an object (`opt.pdfOpenParams || {}`). -/
def buildURLFragmentString (pdfParams : List (String × JSValue)) : String :=
  let string := pdfParams.foldl
    (fun acc p =>
      acc ++ encodeURIComponent p.1 ++ "=" ++ encodeURIComponent (jsString p.2) ++ "&")
    ""
  if string == "" then string
  else jsDropLast ("#" ++ string)

/-- JS property assignment `obj[k] = v` on an insertion-ordered record:
    an existing key keeps its position and gets the new value, a new key is
    appended at the end. -/
def setProp (params : List (String × JSValue)) (k : String) (v : JSValue) :
    List (String × JSValue) :=
  if params.any (fun p => p.1 == k) then
    params.map (fun p => if p.1 == k then (k, v) else p)
  else
    params ++ [(k, v)]

/-!  ## Capability signals (the ambient browser environment) -/

/-- The ambient environment data read by the library: `navigator` fields and
    whether `Promise` is defined.  `Option` models possibly-`undefined`
    properties. -/
structure Environment where
  pdfViewerEnabled : Option Bool
  userAgent : String
  platform : Option String
  maxTouchPoints : Option Nat
  userAgentDataMobile : Option Bool
  vendor : Option String
  promiseDefined : Bool

/-- The regex test `/Mobi|Tablet|Android|iPad|iPhone/.test(ua)`. -/
def mobileUATest (ua : String) : Bool :=
  strContains ua "Mobi" || strContains ua "Tablet" || strContains ua "Android" ||
    strContains ua "iPad" || strContains ua "iPhone"

/-- Translation of `isMobileDevice` (src/pdfo.ts lines 252-272). -/
def isMobileDevice (env : Environment) : Bool :=
  let isSafariIOSDesktopMode :=
    (match env.platform with
     | some p => p == "MacIntel"
     | none => false) &&
    (match env.maxTouchPoints with
     | some n => decide (1 < n)
     | none => false)
  isSafariIOSDesktopMode ||
    mobileUATest env.userAgent ||
    (match env.userAgentDataMobile with
     | some b => b
     | none => false)

/-- Translation of `isSafariDesktop` (src/pdfo.ts lines 275-285). -/
def isSafariDesktop (env : Environment) : Bool :=
  !isMobileDevice env &&
    (match env.vendor with
     | some v => strContains v "Apple"
     | none => false) &&
    strContains env.userAgent "Safari"

/-- Translation of `supportsPDFs` (src/pdfo.ts lines 227-250). -/
def supportsPDFs (env : Environment) : Bool :=
  match env.pdfViewerEnabled with
  | some b => b
  | none => !isMobileDevice env && env.promiseDefined

/-- The guard of the embed attempt,
    `supportsPDFs() || (assumptionMode && !isMobileDevice())`
    (src/pdfo.ts line 85). -/
def supportOK (env : Environment) (assumptionMode : Bool) : Bool :=
  supportsPDFs env || (assumptionMode && !isMobileDevice env)

/-!  ## DOM model -/

/-- An element reference; distinct numbers model distinct live elements
    (JS reference identity). -/
abbrev ElemRef := Nat

/-- The observable state of the element created by `generatePDFoMarkup`.
    `styleCssText = none` means `style.cssText` was never assigned. -/
structure EmbedEl where
  tag : String
  src : String
  className : String
  title : String
  id : String
  allow : Option String
  typeAttr : Option String
  styleCssText : Option String
deriving DecidableEq

/-- A child of a container: either an element created by the library, or the
    markup assigned through `innerHTML` (kept as one opaque blob). -/
inductive ChildNode where
  | elem (el : EmbedEl)
  | htmlBlob (s : String)
deriving DecidableEq

/-- The observable state of a container element. -/
structure ContainerState where
  children : List ChildNode
  classes : List String
deriving DecidableEq

/-- The document: the `body` element and the `querySelector` lookup
    (`none` models a `null` result). -/
structure Document where
  body : ElemRef
  querySelector : String → Option ElemRef

/-- The DOM: the state of every container element. -/
abbrev Dom := ElemRef → ContainerState

/-- Translation of `getTargetElement` (src/pdfo.ts lines 170-189).
    A string is looked up with `querySelector` (a `null` result is the
    `none` case, matching the unchecked cast in the source); an element
    argument always has `nodeType === 1` under the declared TypeScript type
    and is used as-is, so the initial default to `document.body` is
    unreachable. -/
def getTargetElement (doc : Document) (targetSelector : Sum ElemRef String) :
    Option ElemRef :=
  match targetSelector with
  | Sum.inl el => some el
  | Sum.inr s => doc.querySelector s

/-- Translation of `embedError` (src/pdfo.ts lines 191-193): the single
    console log line it produces. -/
def embedError (msg : String) : List String :=
  ["[pdfo] " ++ msg]

/-- Translation of `emptyNodeContents` (src/pdfo.ts lines 195-199). -/
def emptyNodeContents (node : ContainerState) : ContainerState :=
  { node with children := [] }

/-- `classList.add`: appends the class unless already present. -/
def addClass (classes : List String) (c : String) : List String :=
  if classes.contains c then classes else classes ++ [c]

/-- The comparison `targetSelector !== document.body`
    (src/pdfo.ts line 154), negated: a strict JS comparison of the raw
    argument against the body element, which is false for every string
    argument. -/
def selectorIsBody (doc : Document) (targetSelector : Sum ElemRef String) : Bool :=
  match targetSelector with
  | Sum.inl el => el == doc.body
  | Sum.inr _ => false

/-- The element construction and attribute assignments of
    `generatePDFoMarkup` (src/pdfo.ts lines 136-162). -/
def buildEmbedElement (doc : Document) (embedType : String)
    (targetSelector : Sum ElemRef String)
    (url pdfOpenFragment width height elemId title : String)
    (omitInlineStyles : Bool) : EmbedEl :=
  let el : EmbedEl :=
    if embedType == "iframe" then
      { tag := embedType, src := "", className := "", title := "", id := "",
        allow := some "fullscreen", typeAttr := none, styleCssText := none }
    else
      { tag := embedType, src := "", className := "", title := "", id := "",
        allow := none, typeAttr := some "application/pdf", styleCssText := none }
  let el := { el with
    src := url ++ pdfOpenFragment, className := "pdfo", title := title, id := elemId }
  if !omitInlineStyles then
    let style := if embedType == "embed" then "overflow: auto;" else "border: none;"
    let style :=
      if !(selectorIsBody doc targetSelector) then
        style ++ "width: " ++ width ++ "; height: " ++ height ++ ";"
      else
        style ++ "position: absolute; top: 0; right: 0; bottom: 0; left: 0; width: 100%; height: 100%;"
    { el with styleCssText := some style }
  else el

/-- Translation of `generatePDFoMarkup` (src/pdfo.ts lines 121-168): empty
    the target, build the element, add the container class, append the
    element. -/
def generatePDFoMarkup (doc : Document) (embedType : String)
    (targetNode : ContainerState) (targetSelector : Sum ElemRef String)
    (url pdfOpenFragment width height elemId title : String)
    (omitInlineStyles : Bool) : ContainerState :=
  let cleared := emptyNodeContents targetNode
  { children := cleared.children ++
      [ChildNode.elem (buildEmbedElement doc embedType targetSelector url
        pdfOpenFragment width height elemId title omitInlineStyles)],
    classes := addClass cleared.classes "pdfo-container" }

/-!  ## Options and the entry point -/

/-- Translation of the `EmbedOptions` interface (src/pdfo.ts lines 15-27).
    `fallbackPrefixOpt` models the `fallbackPrefix` option named by the
    specification: the interface in the source has no such field and the
    implementation never reads any such property (in JS an unknown option
    property is silently ignored), so the field is carried here only to make
    statements about calls that configure it. -/
structure EmbedOptions where
  id : Option String := none
  page : Option JSValue := none
  pdfOpenParams : Option (List (String × JSValue)) := none
  fallbackLink : Option (Sum String Bool) := none
  width : Option String := none
  height : Option String := none
  title : Option String := none
  assumptionMode : Option Bool := none
  supportRedirect : Option Bool := none
  omitInlineStyles : Option Bool := none
  forceIframe : Option Bool := none
  fallbackPrefixOpt : Option String := none
deriving DecidableEq

/-- `const page = opt.page || null` (src/pdfo.ts line 39). -/
def resolvedPage (opt : EmbedOptions) : Option JSValue :=
  match opt.page with
  | some v => if jsTruthy v then some v else none
  | none => none

/-- The parameter record used to build the fragment, after the
    `page`-override assignment `pdfOpenParams.page = page`
    (src/pdfo.ts lines 40 and 72-75). -/
def resolvedParams (opt : EmbedOptions) : List (String × JSValue) :=
  match resolvedPage opt with
  | some v => setProp (opt.pdfOpenParams.getD []) "page" v
  | none => opt.pdfOpenParams.getD []

/-- `const embedType = forceIframe || supportRedirect || isSafariDesktop()
    ? 'iframe' : 'embed'` (src/pdfo.ts lines 92-93), with the option
    defaulting of lines 51-56 applied. -/
def embedTypeFor (env : Environment) (opt : EmbedOptions) : String :=
  if opt.forceIframe.getD false || opt.supportRedirect.getD false || isSafariDesktop env
  then "iframe" else "embed"

/-- The default fallback markup (src/pdfo.ts lines 60-61). -/
def fallbackHTMLDefault : String :=
  "<p>This browser does not support inline PDFs. Please download the PDF to view it: <a href='[url]'>Download PDF</a></p>"

/-- `fallbackHTML = typeof fallbackLink === 'string' ? fallbackLink :
    fallbackHTMLDefault` (src/pdfo.ts lines 113-114). -/
def resolvedFallbackHTML (fb : Sum String Bool) : String :=
  match fb with
  | Sum.inl s => s
  | Sum.inr _ => fallbackHTMLDefault

/-- The caller-visible options record after the call: the in-place
    assignment `pdfOpenParams.page = page` (src/pdfo.ts lines 73-75) writes
    through the alias into the caller's `pdfOpenParams` object exactly when
    the caller supplied one and `page` resolved truthy; `opt.pdfOpenParams
    || {}` otherwise mutates a fresh object the caller never sees. -/
def optionsAfterOf (options : Option EmbedOptions) : Option EmbedOptions :=
  match options with
  | none => none
  | some o =>
    match resolvedPage o, o.pdfOpenParams with
    | some v, some ps => some { o with pdfOpenParams := some (setProp ps "page" v) }
    | _, _ => some o

/-- The observable outcome of one `embed` call: the new DOM, the console
    log lines, and the caller-visible final options value. -/
structure EmbedResult where
  dom : Dom
  logs : List String
  optionsAfter : Option EmbedOptions

/-- Translation of `embed` (src/pdfo.ts lines 29-119). -/
def embed (env : Environment) (doc : Document) (dom : Dom) (url : String)
    (targetSelector : Sum ElemRef String) (options : Option EmbedOptions) :
    EmbedResult :=
  let opt := options.getD {}
  let elemId := opt.id.getD ""
  let fallbackLink := opt.fallbackLink.getD (Sum.inr true)
  let width := jsOrDefault opt.width "100%"
  let height := jsOrDefault opt.height "100%"
  let title := jsOrDefault opt.title "Embedded PDF"
  let assumptionMode := opt.assumptionMode.getD true
  let omitInlineStyles := opt.omitInlineStyles.getD false
  match getTargetElement doc targetSelector with
  | none =>
    { dom := dom,
      logs := embedError "Target element cannot be determined",
      optionsAfter := options }
  | some targetNode =>
    let pdfOpenParams := resolvedParams opt
    let pdfOpenFragment := buildURLFragmentString pdfOpenParams
    if supportOK env assumptionMode then
      { dom := Function.update dom targetNode
          (generatePDFoMarkup doc (embedTypeFor env opt) (dom targetNode)
            targetSelector url pdfOpenFragment width height elemId title
            omitInlineStyles),
        logs := [],
        optionsAfter := optionsAfterOf options }
    else
      let dom1 :=
        if sumTruthy fallbackLink then
          Function.update dom targetNode
            { dom targetNode with
              children := [ChildNode.htmlBlob
                (jsReplaceAll (resolvedFallbackHTML fallbackLink) "[url]" url)] }
        else dom
      { dom := dom1,
        logs := embedError "This browser does not support embedded PDFs",
        optionsAfter := optionsAfterOf options }

/-- The iframe-kind children of a container whose resource reference equals
    `ref` (the shape the specification predicts for its redirect fallback). -/
def iframeChildrenWithSrc (st : ContainerState) (ref : String) : List ChildNode :=
  st.children.filter (fun c =>
    match c with
    | ChildNode.elem el => el.tag == "iframe" && el.src == ref
    | ChildNode.htmlBlob _ => false)

/-!  ## Concrete fixtures for witnesses and counterexamples -/

/-- A document with `body = 0` and two resolvable selectors. -/
def doc0 : Document :=
  { body := 0,
    querySelector := fun s =>
      if s == "#box" then some 1 else if s == "body" then some 0 else none }

/-- A DOM in which every container starts empty. -/
def dom0 : Dom := fun _ => { children := [], classes := [] }

/-- A modern desktop Linux browser: no declared flag, not mobile, not
    Safari, `Promise` defined. -/
def envDesk : Environment :=
  { pdfViewerEnabled := none,
    userAgent := "Mozilla/5.0 (X11; Linux x86_64) Chrome/120.0",
    platform := some "Linux x86_64",
    maxTouchPoints := some 0,
    userAgentDataMobile := none,
    vendor := some "Google Inc.",
    promiseDefined := true }

/-- A mobile browser (iPhone user agent), no declared flag. -/
def envMob : Environment :=
  { pdfViewerEnabled := none,
    userAgent := "Mozilla/5.0 (iPhone; CPU iPhone OS 15_0 like Mac OS X) Safari/604.1",
    platform := some "iPhone",
    maxTouchPoints := some 5,
    userAgentDataMobile := none,
    vendor := some "Apple Computer, Inc.",
    promiseDefined := true }

/-- A mobile browser that declares `pdfViewerEnabled = false`. -/
def envC2m : Environment :=
  { envMob with pdfViewerEnabled := some false }

/-- A desktop browser that declares `pdfViewerEnabled = false`. -/
def envC2 : Environment :=
  { envDesk with pdfViewerEnabled := some false, vendor := none }

/-- A mobile browser that declares `pdfViewerEnabled = true`. -/
def envC6 : Environment :=
  { envMob with pdfViewerEnabled := some true }

/-- Options configuring the fallback prefix of the specification scenario. -/
def optsC1 : EmbedOptions :=
  { fallbackPrefixOpt := some "https://viewer.example/show?u=" }

/-- Options with a truthy `page` and a caller-supplied `pdfOpenParams`
    that already has a `page` entry. -/
def optsC3 : EmbedOptions :=
  { page := some (JSValue.num 2), pdfOpenParams := some [("page", JSValue.str "1")] }

/-- Options with a truthy `page` and an empty caller-supplied
    `pdfOpenParams`. -/
def optsC3w : EmbedOptions :=
  { page := some (JSValue.num 2), pdfOpenParams := some [] }

/-- The options of the specification scenario for the iframe case. -/
def optsC4 : EmbedOptions :=
  { forceIframe := some true, pdfOpenParams := some [("view", JSValue.str "Fit")] }

/-- Options selecting `supportRedirect` only. -/
def optsC4sr : EmbedOptions :=
  { supportRedirect := some true }

/-- Options disabling the link fallback. -/
def optsC8 : EmbedOptions :=
  { fallbackLink := some (Sum.inr false) }

/-- Options with a truthy `page` overriding an existing `page` entry of
    `pdfOpenParams`. -/
def optsC10 : EmbedOptions :=
  { page := some (JSValue.num 3),
    pdfOpenParams := some [("page", JSValue.str "1"), ("view", JSValue.str "Fit")] }

/-- A DOM in which container `1` already holds some host-page markup. -/
def domPre : Dom := fun r =>
  if r == 1 then { children := [ChildNode.htmlBlob "preexisting"], classes := [] }
  else { children := [], classes := [] }

end Pdfo

namespace Pdfo

/-!  ## Shared characterization lemmas for the branches of `embed` -/

theorem generatePDFoMarkup_children (doc : Document) (embedType : String)
    (targetNode : ContainerState) (targetSelector : Sum ElemRef String)
    (url pdfOpenFragment width height elemId title : String)
    (omitInlineStyles : Bool) :
    (generatePDFoMarkup doc embedType targetNode targetSelector url
      pdfOpenFragment width height elemId title omitInlineStyles).children
      = [ChildNode.elem (buildEmbedElement doc embedType targetSelector url
          pdfOpenFragment width height elemId title omitInlineStyles)] := rfl

theorem buildEmbedElement_tag (doc : Document) (embedType : String)
    (targetSelector : Sum ElemRef String)
    (url pdfOpenFragment width height elemId title : String)
    (omitInlineStyles : Bool) :
    (buildEmbedElement doc embedType targetSelector url pdfOpenFragment width
      height elemId title omitInlineStyles).tag = embedType := by
  unfold buildEmbedElement
  by_cases h1 : (embedType == "iframe") = true <;>
    by_cases h2 : omitInlineStyles = true <;>
      simp [h1, h2]

theorem buildEmbedElement_src (doc : Document) (embedType : String)
    (targetSelector : Sum ElemRef String)
    (url pdfOpenFragment width height elemId title : String)
    (omitInlineStyles : Bool) :
    (buildEmbedElement doc embedType targetSelector url pdfOpenFragment width
      height elemId title omitInlineStyles).src = url ++ pdfOpenFragment := by
  unfold buildEmbedElement
  by_cases h1 : (embedType == "iframe") = true <;>
    by_cases h2 : omitInlineStyles = true <;>
      simp [h1, h2]

theorem buildEmbedElement_style (doc : Document) (embedType : String)
    (targetSelector : Sum ElemRef String)
    (url pdfOpenFragment width height elemId title : String) :
    (buildEmbedElement doc embedType targetSelector url pdfOpenFragment width
      height elemId title false).styleCssText = some
        ((if embedType == "embed" then "overflow: auto;" else "border: none;")
          ++ (if !(selectorIsBody doc targetSelector) then
                "width: " ++ width ++ "; height: " ++ height ++ ";"
              else
                "position: absolute; top: 0; right: 0; bottom: 0; left: 0; width: 100%; height: 100%;")) := by
  unfold buildEmbedElement
  by_cases h1 : (embedType == "iframe") = true <;>
    by_cases h2 : selectorIsBody doc targetSelector = false <;>
      simp [h1, h2, String.append_assoc]

theorem setProp_mem (ps : List (String × JSValue)) (k : String) (v : JSValue) :
    (k, v) ∈ setProp ps k v := by
  unfold setProp
  by_cases hany : ps.any (fun p => p.1 == k)
  · rw [if_pos hany]
    obtain ⟨p, hp, hpk⟩ := List.any_eq_true.mp hany
    exact List.mem_map.mpr ⟨p, hp, by simp [hpk]⟩
  · rw [if_neg hany]
    exact List.mem_append_right _ (List.mem_singleton.mpr rfl)

theorem setProp_key_unique (ps : List (String × JSValue)) (k : String)
    (v w : JSValue) (hmem : (k, w) ∈ setProp ps k v) : w = v := by
  unfold setProp at hmem
  by_cases hany : ps.any (fun p => p.1 == k)
  · rw [if_pos hany] at hmem
    obtain ⟨p, _, heq⟩ := List.mem_map.mp hmem
    by_cases hpk : (p.1 == k) = true
    · rw [if_pos hpk] at heq
      exact (Prod.mk.injEq _ _ _ _ ▸ heq).2.symm
    · rw [if_neg hpk] at heq
      exact absurd (by rw [heq]; exact beq_self_eq_true k) hpk
  · rw [if_neg hany] at hmem
    rcases List.mem_append.mp hmem with h | h
    · exact absurd (List.any_eq_true.mpr ⟨(k, w), h, beq_self_eq_true k⟩) hany
    · exact ((Prod.mk.injEq _ _ _ _ ▸ List.mem_singleton.mp h).2)

theorem setProp_ne_nil (ps : List (String × JSValue)) (k : String) (v : JSValue) :
    setProp ps k v ≠ [] := by
  unfold setProp
  by_cases hany : ps.any (fun p => p.1 == k)
  · rw [if_pos hany]
    obtain ⟨p, hp, _⟩ := List.any_eq_true.mp hany
    simp [List.ne_nil_of_mem hp]
  · rw [if_neg hany]
    simp

theorem resolvedParams_page (o : EmbedOptions) (v : JSValue)
    (hp : o.page = some v) (htr : jsTruthy v = true) :
    resolvedParams o = setProp (o.pdfOpenParams.getD []) "page" v := by
  unfold resolvedParams resolvedPage
  rw [hp]
  simp [htr]

theorem embed_unresolved (env : Environment) (doc : Document) (dom : Dom)
    (url : String) (sel : Sum ElemRef String) (opts : Option EmbedOptions)
    (hres : getTargetElement doc sel = none) :
    embed env doc dom url sel opts =
      { dom := dom,
        logs := ["[pdfo] Target element cannot be determined"],
        optionsAfter := opts } := by
  unfold embed
  rw [hres]
  rfl

theorem embed_supported (env : Environment) (doc : Document) (dom : Dom)
    (url : String) (sel : Sum ElemRef String) (opts : Option EmbedOptions)
    (t : ElemRef)
    (hres : getTargetElement doc sel = some t)
    (hsup : supportOK env ((opts.getD {}).assumptionMode.getD true) = true) :
    embed env doc dom url sel opts =
      { dom := Function.update dom t
          (generatePDFoMarkup doc (embedTypeFor env (opts.getD {})) (dom t) sel url
            (buildURLFragmentString (resolvedParams (opts.getD {})))
            (jsOrDefault (opts.getD {}).width "100%")
            (jsOrDefault (opts.getD {}).height "100%")
            ((opts.getD {}).id.getD "")
            (jsOrDefault (opts.getD {}).title "Embedded PDF")
            ((opts.getD {}).omitInlineStyles.getD false)),
        logs := [],
        optionsAfter := optionsAfterOf opts } := by
  unfold embed
  rw [hres]
  simp only [hsup, if_true]

theorem embed_unsupported (env : Environment) (doc : Document) (dom : Dom)
    (url : String) (sel : Sum ElemRef String) (opts : Option EmbedOptions)
    (t : ElemRef)
    (hres : getTargetElement doc sel = some t)
    (hsup : supportOK env ((opts.getD {}).assumptionMode.getD true) = false) :
    embed env doc dom url sel opts =
      { dom :=
          if sumTruthy ((opts.getD {}).fallbackLink.getD (Sum.inr true)) then
            Function.update dom t
              { dom t with
                children := [ChildNode.htmlBlob
                  (jsReplaceAll
                    (resolvedFallbackHTML ((opts.getD {}).fallbackLink.getD (Sum.inr true)))
                    "[url]" url)] }
          else dom,
        logs := ["[pdfo] This browser does not support embedded PDFs"],
        optionsAfter := optionsAfterOf opts } := by
  unfold embed
  rw [hres]
  simp only [hsup, Bool.false_eq_true, if_false]
  rfl

theorem embed_optionsAfter (env : Environment) (doc : Document) (dom : Dom)
    (url : String) (sel : Sum ElemRef String) (opts : Option EmbedOptions)
    (t : ElemRef) (hres : getTargetElement doc sel = some t) :
    (embed env doc dom url sel opts).optionsAfter = optionsAfterOf opts := by
  unfold embed
  rw [hres]
  by_cases h : supportOK env ((opts.getD {}).assumptionMode.getD true) = true
  · simp only [h, if_true]
  · simp only [eq_false_of_ne_true h, Bool.false_eq_true, if_false]

/-!  ## Lemmas about the fragment encoder -/

theorem hexDigit_mem (n : Nat) : hexDigit n ∈ hexChars := by
  by_cases h : n < 16
  · interval_cases n <;> decide
  · have hlen : hexChars.length ≤ n := by
      simpa [hexChars] using Nat.not_lt.mp h
    rw [hexDigit, List.getD_eq_default _ _ hlen]
    decide

theorem amp_not_in_encCharList (c : Char) : '&' ∉ encCharList c := by
  intro hmem
  unfold encCharList at hmem
  by_cases hu : uriUnreservedChar c
  · rw [if_pos hu] at hmem
    have : c = '&' := (List.mem_singleton.mp hmem).symm
    subst this
    exact absurd hu (by decide)
  · rw [if_neg hu] at hmem
    obtain ⟨b, _, hb⟩ := List.mem_flatMap.mp hmem
    unfold percentChars at hb
    rw [List.mem_cons, List.mem_cons, List.mem_singleton] at hb
    rcases hb with hb | hb | hb
    · exact absurd hb (by decide)
    · have hm := hexDigit_mem (b / 16)
      rw [← hb] at hm
      exact absurd hm (by decide)
    · have hm := hexDigit_mem (b % 16)
      rw [← hb] at hm
      exact absurd hm (by decide)

theorem amp_not_in_enc (s : String) : '&' ∉ (encodeURIComponent s).data := by
  intro hmem
  have : '&' ∈ s.data.flatMap encCharList := hmem
  obtain ⟨c, _, hc⟩ := List.mem_flatMap.mp this
  exact amp_not_in_encCharList c hc

theorem encPair_data (p : String × JSValue) :
    (encPair p).data =
      (encodeURIComponent p.1).data ++ '=' :: (encodeURIComponent (jsString p.2)).data := by
  simp [encPair, String.data_append]

theorem encPair_ne_nil (p : String × JSValue) : (encPair p).data ≠ [] := by
  rw [encPair_data]
  simp

theorem encPair_last_ne_amp (p : String × JSValue) :
    (encPair p).data.getLast? ≠ some '&' := by
  rw [encPair_data, List.getLast?_append_cons]
  intro h
  have hmem : '&' ∈ '=' :: (encodeURIComponent (jsString p.2)).data := by
    obtain ⟨hne, heq⟩ := List.mem_getLast?_eq_getLast h
    exact heq ▸ List.getLast_mem hne
  rcases List.mem_cons.mp hmem with h' | h'
  · exact absurd h' (by decide)
  · exact amp_not_in_enc _ h'

theorem frag_foldl (ps : List (String × JSValue)) (acc : String) :
    ps.foldl
      (fun acc p =>
        acc ++ encodeURIComponent p.1 ++ "=" ++ encodeURIComponent (jsString p.2) ++ "&")
      acc = acc ++ fragBody ps := by
  induction ps generalizing acc with
  | nil => simp [fragBody, String.append_empty]
  | cons p t ih =>
    rw [List.foldl_cons, ih]
    simp [fragBody, encPair, String.append_assoc]

theorem fragBody_eq_amp (ps : List (String × JSValue)) (h : ps ≠ []) :
    fragBody ps = ampJoin (ps.map encPair) ++ "&" := by
  induction ps with
  | nil => exact absurd rfl h
  | cons p t ih =>
    cases t with
    | nil => simp [fragBody, ampJoin, String.append_empty]
    | cons q t' =>
      have := ih (by simp)
      simp only [fragBody] at this ⊢
      rw [this]
      simp only [List.map_cons, ampJoin, String.append_assoc]

theorem fragBody_data_ne_nil (ps : List (String × JSValue)) (h : ps ≠ []) :
    (fragBody ps).data ≠ [] := by
  cases ps with
  | nil => exact absurd rfl h
  | cons p t =>
    simp only [fragBody, String.data_append]
    simp

theorem ampJoin_facts (l : List String)
    (h : ∀ x ∈ l, x.data ≠ [] ∧ x.data.getLast? ≠ some '&') (hne : l ≠ []) :
    (ampJoin l).data ≠ [] ∧ (ampJoin l).data.getLast? ≠ some '&' := by
  induction l with
  | nil => exact absurd rfl hne
  | cons x t ih =>
    cases t with
    | nil =>
      simpa [ampJoin] using h x (by simp)
    | cons y t' =>
      have hrest := ih (fun z hz => h z (List.mem_cons_of_mem x hz)) (by simp)
      simp only [ampJoin, String.data_append]
      constructor
      · simp
      · rw [List.append_assoc, List.getLast?_append_of_ne_nil]
        · rw [List.getLast?_append_of_ne_nil]
          · exact hrest.2
          · exact hrest.1
        · simp [hrest.1]

theorem buildURLFragmentString_nil : buildURLFragmentString [] = "" := rfl

theorem buildURLFragmentString_eq (ps : List (String × JSValue)) (h : ps ≠ []) :
    buildURLFragmentString ps = "#" ++ ampJoin (ps.map encPair) := by
  unfold buildURLFragmentString
  rw [frag_foldl, String.empty_append]
  have hne : fragBody ps ≠ "" := by
    intro h'
    exact fragBody_data_ne_nil ps h (by rw [h'])
  have hbeq : (fragBody ps == "") = false := by simp [hne]
  simp only [hbeq, Bool.false_eq_true, if_false]
  rw [fragBody_eq_amp ps h]
  apply String.ext
  simp only [jsDropLast, String.data_append]
  rw [← List.append_assoc, List.dropLast_concat]

theorem buildURLFragmentString_getLast (ps : List (String × JSValue)) (h : ps ≠ []) :
    (buildURLFragmentString ps).data.getLast? ≠ some '&' := by
  rw [buildURLFragmentString_eq ps h]
  have hfacts := ampJoin_facts (ps.map encPair)
    (fun x hx => by
      obtain ⟨p, _, rfl⟩ := List.mem_map.mp hx
      exact ⟨encPair_ne_nil p, encPair_last_ne_amp p⟩)
    (by simp [h])
  simp only [String.data_append]
  rw [show ("#" : String).data ++ (ampJoin (ps.map encPair)).data
        = ['#'] ++ (ampJoin (ps.map encPair)).data from rfl]
  rw [List.getLast?_append_of_ne_nil _ hfacts.1]
  exact hfacts.2

/-!  ## Claims -/

/-- C9: when the target cannot be resolved to a live container, `embed`
    performs no DOM mutation, reports the failure as a single log line, does
    not touch the options record, and returns normally (the model is a total
    function into `EmbedResult`, with no error value). -/
theorem C9_unresolved_target (env : Environment) (doc : Document) (dom : Dom)
    (url : String) (sel : Sum ElemRef String) (opts : Option EmbedOptions)
    (hres : getTargetElement doc sel = none) :
    (embed env doc dom url sel opts).dom = dom
    ∧ (embed env doc dom url sel opts).logs
        = ["[pdfo] Target element cannot be determined"]
    ∧ (embed env doc dom url sel opts).optionsAfter = opts := by
  rw [embed_unresolved env doc dom url sel opts hres]
  exact ⟨rfl, rfl, rfl⟩

/-- Witness for C9 at a selector that resolves to nothing. -/
theorem C9_unresolved_target_witness :
    getTargetElement doc0 (Sum.inr "#missing") = none
    ∧ ((embed envDesk doc0 dom0 "doc.pdf" (Sum.inr "#missing") none).dom = dom0
      ∧ (embed envDesk doc0 dom0 "doc.pdf" (Sum.inr "#missing") none).logs
          = ["[pdfo] Target element cannot be determined"]
      ∧ (embed envDesk doc0 dom0 "doc.pdf" (Sum.inr "#missing") none).optionsAfter = none) :=
  ⟨by decide,
   C9_unresolved_target envDesk doc0 dom0 "doc.pdf" (Sum.inr "#missing") none (by decide)⟩

/-- C1 counterexample: on the mobile scenario with
    `fallbackPrefix = "https://viewer.example/show?u="` and url `"doc.pdf"`,
    the container does not end with an iframe-kind child referencing
    `"https://viewer.example/show?u=doc.pdf"`; it holds the link-fallback
    markup instead (no redirect-fallback strategy exists in the code). -/
theorem C1_counterexample :
    optsC1.fallbackPrefixOpt = some "https://viewer.example/show?u="
    ∧ iframeChildrenWithSrc
        ((embed envMob doc0 dom0 "doc.pdf" (Sum.inr "#box") (some optsC1)).dom 1)
        "https://viewer.example/show?u=doc.pdf" = []
    ∧ ((embed envMob doc0 dom0 "doc.pdf" (Sum.inr "#box") (some optsC1)).dom 1).children
        = [ChildNode.htmlBlob (jsReplaceAll fallbackHTMLDefault "[url]" "doc.pdf")] := by
  decide

/-- C1 (amended): when support is judged absent, a configured
    `fallbackPrefix` is ignored (the code has no such option): no iframe is
    created for any prefixed reference, and with a truthy `fallbackLink`
    (the default) the container content becomes the fallback markup with
    every `[url]` token substituted by the url under JS replace semantics
    (dollar escapes in the url are expanded by GetSubstitution, see
    `substLoop`; for a url without dollars this is plain literal
    replacement), plus the unsupported log line. -/
theorem C1_no_redirect_fallback (env : Environment) (doc : Document) (dom : Dom)
    (url : String) (sel : Sum ElemRef String) (opts : Option EmbedOptions)
    (t : ElemRef)
    (hres : getTargetElement doc sel = some t)
    (hsup : supportOK env ((opts.getD {}).assumptionMode.getD true) = false)
    (hfb : sumTruthy ((opts.getD {}).fallbackLink.getD (Sum.inr true)) = true) :
    ((embed env doc dom url sel opts).dom t).children
        = [ChildNode.htmlBlob (jsReplaceAll
            (resolvedFallbackHTML ((opts.getD {}).fallbackLink.getD (Sum.inr true)))
            "[url]" url)]
    ∧ (∀ pre : String,
        iframeChildrenWithSrc ((embed env doc dom url sel opts).dom t) (pre ++ url) = [])
    ∧ (embed env doc dom url sel opts).logs
        = ["[pdfo] This browser does not support embedded PDFs"] := by
  rw [embed_unsupported env doc dom url sel opts t hres hsup]
  refine ⟨?_, ?_, rfl⟩
  · simp [hfb, Function.update_same]
  · intro pre
    simp [hfb, Function.update_same, iframeChildrenWithSrc]

/-- Witness for C1 on the mobile scenario with the configured prefix. -/
theorem C1_no_redirect_fallback_witness :
    ((embed envMob doc0 dom0 "doc.pdf" (Sum.inr "#box") (some optsC1)).dom 1).children
        = [ChildNode.htmlBlob (jsReplaceAll
            (resolvedFallbackHTML (((some optsC1).getD {}).fallbackLink.getD (Sum.inr true)))
            "[url]" "doc.pdf")]
    ∧ (∀ pre : String,
        iframeChildrenWithSrc
          ((embed envMob doc0 dom0 "doc.pdf" (Sum.inr "#box") (some optsC1)).dom 1)
          (pre ++ "doc.pdf") = [])
    ∧ (embed envMob doc0 dom0 "doc.pdf" (Sum.inr "#box") (some optsC1)).logs
        = ["[pdfo] This browser does not support embedded PDFs"] :=
  C1_no_redirect_fallback envMob doc0 dom0 "doc.pdf" (Sum.inr "#box") (some optsC1) 1
    (by decide) (by decide) (by decide)

/-- C2 counterexample: with `pdfViewerEnabled = false` on a non-mobile
    modern environment and default options (`assumptionMode = true`),
    `embed` still takes the native-embed path: no fallback log is emitted
    and the container ends with a native `embed` element. -/
theorem C2_counterexample :
    envC2.pdfViewerEnabled = some false
    ∧ (embed envC2 doc0 dom0 "doc.pdf" (Sum.inr "#box") none).logs = []
    ∧ ((embed envC2 doc0 dom0 "doc.pdf" (Sum.inr "#box") none).dom 1).children
        = [ChildNode.elem
            { tag := "embed", src := "doc.pdf", className := "pdfo",
              title := "Embedded PDF", id := "", allow := none,
              typeAttr := some "application/pdf",
              styleCssText := some "overflow: auto;width: 100%; height: 100%;" }] := by
  decide

/-- C2 (amended): a declared-false capability flag makes `supportsPDFs()`
    return false, but it does not short-circuit `embed`: the call proceeds
    to the fallback strategies exactly when `assumptionMode` is false or the
    device is classified mobile; with `assumptionMode` true on a non-mobile
    device the embed path is still taken. -/
theorem C2_declared_false (env : Environment) (doc : Document) (dom : Dom)
    (url : String) (sel : Sum ElemRef String) (opts : Option EmbedOptions)
    (t : ElemRef)
    (hflag : env.pdfViewerEnabled = some false)
    (hres : getTargetElement doc sel = some t) :
    supportsPDFs env = false
    ∧ (((opts.getD {}).assumptionMode.getD true = false ∨ isMobileDevice env = true) →
        (embed env doc dom url sel opts).logs
          = ["[pdfo] This browser does not support embedded PDFs"])
    ∧ ((opts.getD {}).assumptionMode.getD true = true ∧ isMobileDevice env = false →
        (embed env doc dom url sel opts).logs = []
        ∧ ((embed env doc dom url sel opts).dom t).children
            = [ChildNode.elem (buildEmbedElement doc (embedTypeFor env (opts.getD {}))
                sel url (buildURLFragmentString (resolvedParams (opts.getD {})))
                (jsOrDefault (opts.getD {}).width "100%")
                (jsOrDefault (opts.getD {}).height "100%")
                ((opts.getD {}).id.getD "")
                (jsOrDefault (opts.getD {}).title "Embedded PDF")
                ((opts.getD {}).omitInlineStyles.getD false))]) := by
  have hs : supportsPDFs env = false := by
    unfold supportsPDFs
    rw [hflag]
  refine ⟨hs, ?_, ?_⟩
  · intro hcase
    have hsup : supportOK env ((opts.getD {}).assumptionMode.getD true) = false := by
      unfold supportOK
      rw [hs]
      rcases hcase with h | h
      · rw [h]; rfl
      · rw [h]; simp
    rw [embed_unsupported env doc dom url sel opts t hres hsup]
  · rintro ⟨ham, hmob⟩
    have hsup : supportOK env ((opts.getD {}).assumptionMode.getD true) = true := by
      unfold supportOK
      rw [hs, ham, hmob]
      rfl
    rw [embed_supported env doc dom url sel opts t hres hsup]
    exact ⟨rfl, by dsimp only; rw [Function.update_same, generatePDFoMarkup_children]⟩

/-- Witness for C2: a mobile environment with a declared-false flag takes
    the fallback branch. -/
theorem C2_declared_false_witness :
    supportsPDFs envC2m = false
    ∧ (embed envC2m doc0 dom0 "doc.pdf" (Sum.inr "#box") none).logs
        = ["[pdfo] This browser does not support embedded PDFs"] :=
  ⟨(C2_declared_false envC2m doc0 dom0 "doc.pdf" (Sum.inr "#box") none 1
      (by decide) (by decide)).1,
   (C2_declared_false envC2m doc0 dom0 "doc.pdf" (Sum.inr "#box") none 1
      (by decide) (by decide)).2.1 (Or.inr (by decide))⟩

/-- C3 counterexample: with a truthy `page` option and a caller-supplied
    `pdfOpenParams`, the caller's options record is mutated: its `page`
    entry is overwritten in place. -/
theorem C3_counterexample :
    (embed envDesk doc0 dom0 "doc.pdf" (Sum.inr "#box") (some optsC3)).optionsAfter
        ≠ some optsC3
    ∧ (embed envDesk doc0 dom0 "doc.pdf" (Sum.inr "#box") (some optsC3)).optionsAfter
        = some { optsC3 with pdfOpenParams := some [("page", JSValue.num 2)] } := by
  decide

/-- C3 (amended): the caller's options record is not mutated except through
    the `pdfOpenParams` alias: when the target resolves, `page` resolves
    truthy and the caller supplied `pdfOpenParams`, the caller's mapping
    receives the `page` entry (`setProp`); with `page` absent or falsy, or
    with no caller-supplied `pdfOpenParams`, the options come back
    unchanged. -/
theorem C3_options_mutation (env : Environment) (doc : Document) (dom : Dom)
    (url : String) (sel : Sum ElemRef String) (o : EmbedOptions) (t : ElemRef)
    (hres : getTargetElement doc sel = some t) :
    (o.page = none → (embed env doc dom url sel (some o)).optionsAfter = some o)
    ∧ (∀ v, o.page = some v → jsTruthy v = false →
        (embed env doc dom url sel (some o)).optionsAfter = some o)
    ∧ (o.pdfOpenParams = none →
        (embed env doc dom url sel (some o)).optionsAfter = some o)
    ∧ (∀ v ps, o.page = some v → jsTruthy v = true → o.pdfOpenParams = some ps →
        (embed env doc dom url sel (some o)).optionsAfter
          = some { o with pdfOpenParams := some (setProp ps "page" v) }) := by
  have heq := embed_optionsAfter env doc dom url sel (some o) t hres
  refine ⟨?_, ?_, ?_, ?_⟩
  · intro hp
    rw [heq]
    simp [optionsAfterOf, resolvedPage, hp]
  · intro v hp htr
    rw [heq]
    simp [optionsAfterOf, resolvedPage, hp, htr]
  · intro hps
    rw [heq]
    cases hrp : resolvedPage o <;> simp [optionsAfterOf, hps, hrp]
  · intro v ps hp htr hps
    rw [heq]
    simp [optionsAfterOf, resolvedPage, hp, htr, hps]

/-- Witness for C3: the mutation case at a concrete input. -/
theorem C3_options_mutation_witness :
    (embed envDesk doc0 dom0 "doc.pdf" (Sum.inr "#box") (some optsC3w)).optionsAfter
      = some { optsC3w with pdfOpenParams := some (setProp [] "page" (JSValue.num 2)) } :=
  (C3_options_mutation envDesk doc0 dom0 "doc.pdf" (Sum.inr "#box") optsC3w 1
      (by decide)).2.2.2 (JSValue.num 2) [] rfl (by decide) rfl

/-- C4 counterexample: with `supportRedirect: true`, neither `forceIframe`
    nor desktop Safari holds, yet the element kind is iframe — the claimed
    equivalence (iframe iff `forceIframe` or desktop Safari) fails. -/
theorem C4_counterexample :
    optsC4sr.forceIframe.getD false = false
    ∧ isSafariDesktop envDesk = false
    ∧ ((embed envDesk doc0 dom0 "doc.pdf" (Sum.inr "#box") (some optsC4sr)).dom 1).children
        = [ChildNode.elem
            { tag := "iframe", src := "doc.pdf", className := "pdfo",
              title := "Embedded PDF", id := "", allow := some "fullscreen",
              typeAttr := none,
              styleCssText := some "border: none;width: 100%; height: 100%;" }] := by
  decide

/-- C4 (amended): when support is judged present, the container ends with
    exactly one element, whose kind is iframe if and only if `forceIframe`
    is set OR `supportRedirect` is set OR the device is desktop Safari
    (native `embed` otherwise), and whose resource reference is the url with
    the open-params fragment appended. -/
theorem C4_embed_type (env : Environment) (doc : Document) (dom : Dom)
    (url : String) (sel : Sum ElemRef String) (opts : Option EmbedOptions)
    (t : ElemRef)
    (hres : getTargetElement doc sel = some t)
    (hsup : supportOK env ((opts.getD {}).assumptionMode.getD true) = true) :
    ∃ el : EmbedEl,
      ((embed env doc dom url sel opts).dom t).children = [ChildNode.elem el]
      ∧ (el.tag = "iframe" ↔
          ((opts.getD {}).forceIframe.getD false
            || (opts.getD {}).supportRedirect.getD false
            || isSafariDesktop env) = true)
      ∧ (el.tag = "iframe" ∨ el.tag = "embed")
      ∧ el.src = url ++ buildURLFragmentString (resolvedParams (opts.getD {})) := by
  rw [embed_supported env doc dom url sel opts t hres hsup]
  dsimp only
  rw [Function.update_same, generatePDFoMarkup_children]
  refine ⟨_, rfl, ?_, ?_, buildEmbedElement_src _ _ _ _ _ _ _ _ _ _⟩
  · rw [buildEmbedElement_tag]
    unfold embedTypeFor
    by_cases hc : ((opts.getD {}).forceIframe.getD false
        || (opts.getD {}).supportRedirect.getD false || isSafariDesktop env) = true
    · rw [if_pos hc]
      exact ⟨fun _ => hc, fun _ => rfl⟩
    · rw [if_neg hc]
      exact ⟨fun h => absurd h (by decide), fun h => absurd h hc⟩
  · rw [buildEmbedElement_tag]
    unfold embedTypeFor
    by_cases hc : ((opts.getD {}).forceIframe.getD false
        || (opts.getD {}).supportRedirect.getD false || isSafariDesktop env) = true
    · rw [if_pos hc]
      exact Or.inl rfl
    · rw [if_neg hc]
      exact Or.inr rfl

/-- Witness for C4 on the specification scenario: `forceIframe: true`,
    `openParams: {view: "Fit"}`, non-mobile non-Safari modern environment,
    giving one iframe child with reference `"doc.pdf#view=Fit"`. -/
theorem C4_embed_type_witness :
    (∃ el : EmbedEl,
      ((embed envDesk doc0 dom0 "doc.pdf" (Sum.inr "#box") (some optsC4)).dom 1).children
          = [ChildNode.elem el]
      ∧ (el.tag = "iframe" ↔
          (((some optsC4).getD {}).forceIframe.getD false
            || ((some optsC4).getD {}).supportRedirect.getD false
            || isSafariDesktop envDesk) = true)
      ∧ (el.tag = "iframe" ∨ el.tag = "embed")
      ∧ el.src = "doc.pdf" ++ buildURLFragmentString (resolvedParams ((some optsC4).getD {})))
    ∧ ((embed envDesk doc0 dom0 "doc.pdf" (Sum.inr "#box") (some optsC4)).dom 1).children
        = [ChildNode.elem
            { tag := "iframe", src := "doc.pdf#view=Fit", className := "pdfo",
              title := "Embedded PDF", id := "", allow := some "fullscreen",
              typeAttr := none,
              styleCssText := some "border: none;width: 100%; height: 100%;" }] :=
  ⟨C4_embed_type envDesk doc0 dom0 "doc.pdf" (Sum.inr "#box") (some optsC4) 1
      (by decide) (by decide),
   by decide⟩

/-- C5 counterexample: the selector string `"body"` resolves to the
    document body, yet the element receives explicit width/height styles
    rather than full-viewport positioning — the style branch compares the
    raw `targetSelector` argument, not the resolved container. -/
theorem C5_counterexample :
    getTargetElement doc0 (Sum.inr "body") = some doc0.body
    ∧ ((embed envDesk doc0 dom0 "doc.pdf" (Sum.inr "body") none).dom 0).children
        = [ChildNode.elem
            { tag := "embed", src := "doc.pdf", className := "pdfo",
              title := "Embedded PDF", id := "", allow := none,
              typeAttr := some "application/pdf",
              styleCssText := some "overflow: auto;width: 100%; height: 100%;" }] := by
  decide

/-- C5 (amended): without `omitInlineStyles`, the element receives
    full-viewport absolute positioning exactly when the `targetSelector`
    argument itself is the body element reference; in every other case —
    including a selector string that resolves to the body — it receives
    explicit width/height styles. -/
theorem C5_style_rule (env : Environment) (doc : Document) (dom : Dom)
    (url : String) (sel : Sum ElemRef String) (opts : Option EmbedOptions)
    (t : ElemRef)
    (hres : getTargetElement doc sel = some t)
    (hsup : supportOK env ((opts.getD {}).assumptionMode.getD true) = true)
    (homit : (opts.getD {}).omitInlineStyles.getD false = false) :
    ∃ el : EmbedEl,
      ((embed env doc dom url sel opts).dom t).children = [ChildNode.elem el]
      ∧ el.styleCssText = some
          ((if embedTypeFor env (opts.getD {}) == "embed"
            then "overflow: auto;" else "border: none;")
            ++ (if !(selectorIsBody doc sel) then
                  "width: " ++ jsOrDefault (opts.getD {}).width "100%"
                    ++ "; height: " ++ jsOrDefault (opts.getD {}).height "100%" ++ ";"
                else
                  "position: absolute; top: 0; right: 0; bottom: 0; left: 0; width: 100%; height: 100%;")) := by
  rw [embed_supported env doc dom url sel opts t hres hsup]
  dsimp only
  rw [Function.update_same, generatePDFoMarkup_children, homit]
  exact ⟨_, rfl, buildEmbedElement_style _ _ _ _ _ _ _ _ _⟩

/-- Witness for C5 with the body element passed directly as the target:
    full-viewport styles apply. -/
theorem C5_style_rule_witness :
    (∃ el : EmbedEl,
      ((embed envDesk doc0 dom0 "doc.pdf" (Sum.inl 0) none).dom 0).children
          = [ChildNode.elem el]
      ∧ el.styleCssText = some
          ((if embedTypeFor envDesk ((none : Option EmbedOptions).getD {}) == "embed"
            then "overflow: auto;" else "border: none;")
            ++ (if !(selectorIsBody doc0 (Sum.inl 0)) then
                  "width: " ++ jsOrDefault ((none : Option EmbedOptions).getD {}).width "100%"
                    ++ "; height: "
                    ++ jsOrDefault ((none : Option EmbedOptions).getD {}).height "100%" ++ ";"
                else
                  "position: absolute; top: 0; right: 0; bottom: 0; left: 0; width: 100%; height: 100%;")))
    ∧ ((embed envDesk doc0 dom0 "doc.pdf" (Sum.inl 0) none).dom 0).children
        = [ChildNode.elem
            { tag := "embed", src := "doc.pdf", className := "pdfo",
              title := "Embedded PDF", id := "", allow := none,
              typeAttr := some "application/pdf",
              styleCssText := some
                "overflow: auto;position: absolute; top: 0; right: 0; bottom: 0; left: 0; width: 100%; height: 100%;" }] :=
  ⟨C5_style_rule envDesk doc0 dom0 "doc.pdf" (Sum.inl 0) none 0
      (by decide) (by decide) (by decide),
   by decide⟩

/-- C6 counterexample: an iPhone user agent with `pdfViewerEnabled = true`
    makes `supportsPDFs()` return true — the declared flag, not the mobile
    classification, dominates. -/
theorem C6_counterexample :
    mobileUATest envC6.userAgent = true ∧ supportsPDFs envC6 = true := by
  decide

/-- C6 (amended): when no capability flag is declared, a user agent
    matching a mobile token makes `supportsPDFs()` return false
    (`assumptionMode`/`assumeSupport` is not an input of `supportsPDFs`). -/
theorem C6_mobile_ua (env : Environment)
    (hflag : env.pdfViewerEnabled = none)
    (hua : mobileUATest env.userAgent = true) :
    supportsPDFs env = false := by
  unfold supportsPDFs
  rw [hflag]
  unfold isMobileDevice
  rw [hua]
  simp

/-- Witness for C6 on the iPhone environment without a declared flag. -/
theorem C6_mobile_ua_witness :
    supportsPDFs envMob = false :=
  C6_mobile_ua envMob rfl (by decide)

/-- C7: the fragment encoder returns the empty string for an empty mapping;
    for a non-empty mapping it returns `#` followed by the `&`-join of the
    `percent-encoded-key=percent-encoded-value` pairs in insertion order
    (values stringified before encoding, see `encPair`), starting with `#`
    and with no trailing `&`. -/
theorem C7_fragment_encoder :
    buildURLFragmentString [] = ""
    ∧ ∀ ps : List (String × JSValue), ps ≠ [] →
        buildURLFragmentString ps = "#" ++ ampJoin (ps.map encPair)
        ∧ (buildURLFragmentString ps).data.head? = some '#'
        ∧ (buildURLFragmentString ps).data.getLast? ≠ some '&' := by
  refine ⟨buildURLFragmentString_nil, fun ps h =>
    ⟨buildURLFragmentString_eq ps h, ?_, buildURLFragmentString_getLast ps h⟩⟩
  rw [buildURLFragmentString_eq ps h]
  rfl

/-- Witness for C7 at a one-entry mapping. -/
theorem C7_fragment_encoder_witness :
    buildURLFragmentString [("view", JSValue.str "Fit")]
        = "#" ++ ampJoin ([("view", JSValue.str "Fit")].map encPair)
    ∧ (buildURLFragmentString [("view", JSValue.str "Fit")]).data.head? = some '#'
    ∧ (buildURLFragmentString [("view", JSValue.str "Fit")]).data.getLast? ≠ some '&' :=
  C7_fragment_encoder.2 [("view", JSValue.str "Fit")] (by decide)

/-- C8 counterexample: two successive identical `embed` calls on the same
    resolving container, in an unsupported environment with
    `fallbackLink: false`, leave the container holding its pre-existing
    host content — content produced by neither call — although both calls
    ran to the unsupported branch. -/
theorem C8_counterexample :
    ((embed envMob doc0
        ((embed envMob doc0 domPre "doc.pdf" (Sum.inr "#box") (some optsC8)).dom)
        "doc.pdf" (Sum.inr "#box") (some optsC8)).dom 1)
      = { children := [ChildNode.htmlBlob "preexisting"], classes := [] }
    ∧ (embed envMob doc0
        ((embed envMob doc0 domPre "doc.pdf" (Sum.inr "#box") (some optsC8)).dom)
        "doc.pdf" (Sum.inr "#box") (some optsC8)).logs
      = ["[pdfo] This browser does not support embedded PDFs"] := by
  decide

/-- C8 (amended): whenever a call produces content — support judged
    present, or support judged absent with a truthy `fallbackLink` — the
    resulting children of the target are independent of whatever the
    container held before (full replace), so the second of two calls fully
    determines the content; but when support is judged absent and
    `fallbackLink` is falsy, `embed` leaves the DOM untouched. -/
theorem C8_full_replace (env : Environment) (doc : Document) (d e : Dom)
    (url : String) (sel : Sum ElemRef String) (opts : Option EmbedOptions)
    (t : ElemRef)
    (hres : getTargetElement doc sel = some t) :
    ((supportOK env ((opts.getD {}).assumptionMode.getD true) = true
        ∨ sumTruthy ((opts.getD {}).fallbackLink.getD (Sum.inr true)) = true) →
      ((embed env doc d url sel opts).dom t).children
        = ((embed env doc e url sel opts).dom t).children)
    ∧ (supportOK env ((opts.getD {}).assumptionMode.getD true) = false →
        sumTruthy ((opts.getD {}).fallbackLink.getD (Sum.inr true)) = false →
        (embed env doc d url sel opts).dom = d) := by
  constructor
  · intro hcase
    by_cases hsup : supportOK env ((opts.getD {}).assumptionMode.getD true) = true
    · rw [embed_supported env doc d url sel opts t hres hsup,
        embed_supported env doc e url sel opts t hres hsup]
      dsimp only
      rw [Function.update_same, Function.update_same,
        generatePDFoMarkup_children, generatePDFoMarkup_children]
    · have hsup' : supportOK env ((opts.getD {}).assumptionMode.getD true) = false := by
        revert hsup
        cases supportOK env ((opts.getD {}).assumptionMode.getD true) <;> simp
      have hfb : sumTruthy ((opts.getD {}).fallbackLink.getD (Sum.inr true)) = true := by
        rcases hcase with hc | hc
        · exact absurd hc hsup
        · exact hc
      rw [embed_unsupported env doc d url sel opts t hres hsup',
        embed_unsupported env doc e url sel opts t hres hsup']
      dsimp only
      rw [if_pos hfb, if_pos hfb, Function.update_same, Function.update_same]
  · intro hsup hfb
    rw [embed_unsupported env doc d url sel opts t hres hsup]
    dsimp only
    rw [if_neg (by simp [hfb])]

/-- Witness for C8: the second-call content is the same whether the
    container was empty or held host markup before. -/
theorem C8_full_replace_witness :
    ((embed envDesk doc0 dom0 "doc.pdf" (Sum.inr "#box") none).dom 1).children
      = ((embed envDesk doc0 domPre "doc.pdf" (Sum.inr "#box") none).dom 1).children :=
  (C8_full_replace envDesk doc0 dom0 domPre "doc.pdf" (Sum.inr "#box") none 1
      (by decide)).1 (Or.inl (by decide))

/-- C10: with a truthy `page` option, on the embed path the element's
    resource reference carries the fragment of the final parameter mapping,
    in which the `page` entry holds exactly the `page` option's value
    (overriding any `page` entry the caller put in `pdfOpenParams`), and
    the encoded `page=<page>` pair is one of the `&`-joined components. -/
theorem C10_page_override (env : Environment) (doc : Document) (dom : Dom)
    (url : String) (sel : Sum ElemRef String) (opts : Option EmbedOptions)
    (t : ElemRef) (v : JSValue)
    (hres : getTargetElement doc sel = some t)
    (hsup : supportOK env ((opts.getD {}).assumptionMode.getD true) = true)
    (hpage : (opts.getD {}).page = some v)
    (htr : jsTruthy v = true) :
    ∃ el : EmbedEl,
      ((embed env doc dom url sel opts).dom t).children = [ChildNode.elem el]
      ∧ el.src = url ++ "#" ++ ampJoin ((resolvedParams (opts.getD {})).map encPair)
      ∧ ("page", v) ∈ resolvedParams (opts.getD {})
      ∧ (∀ w, ("page", w) ∈ resolvedParams (opts.getD {}) → w = v)
      ∧ encPair ("page", v) ∈ (resolvedParams (opts.getD {})).map encPair := by
  have hrp : resolvedParams (opts.getD {})
      = setProp ((opts.getD {}).pdfOpenParams.getD []) "page" v :=
    resolvedParams_page _ v hpage htr
  have hne : resolvedParams (opts.getD {}) ≠ [] := by
    rw [hrp]
    exact setProp_ne_nil _ _ _
  rw [embed_supported env doc dom url sel opts t hres hsup]
  dsimp only
  rw [Function.update_same, generatePDFoMarkup_children]
  refine ⟨_, rfl, ?_, ?_, ?_, ?_⟩
  · rw [buildEmbedElement_src, buildURLFragmentString_eq _ hne]
    simp [String.append_assoc]
  · rw [hrp]
    exact setProp_mem _ _ _
  · intro w hw
    rw [hrp] at hw
    exact setProp_key_unique _ _ _ _ hw
  · apply List.mem_map_of_mem
    rw [hrp]
    exact setProp_mem _ _ _

/-- Witness for C10: `page: 3` overrides `pdfOpenParams.page = "1"`, and
    the reference becomes `"doc.pdf#page=3&view=Fit"`. -/
theorem C10_page_override_witness :
    (∃ el : EmbedEl,
      ((embed envDesk doc0 dom0 "doc.pdf" (Sum.inr "#box") (some optsC10)).dom 1).children
          = [ChildNode.elem el]
      ∧ el.src = "doc.pdf" ++ "#"
          ++ ampJoin ((resolvedParams ((some optsC10).getD {})).map encPair)
      ∧ ("page", JSValue.num 3) ∈ resolvedParams ((some optsC10).getD {})
      ∧ (∀ w, ("page", w) ∈ resolvedParams ((some optsC10).getD {}) → w = JSValue.num 3)
      ∧ encPair ("page", JSValue.num 3)
          ∈ (resolvedParams ((some optsC10).getD {})).map encPair)
    ∧ ((embed envDesk doc0 dom0 "doc.pdf" (Sum.inr "#box") (some optsC10)).dom 1).children
        = [ChildNode.elem
            { tag := "embed", src := "doc.pdf#page=3&view=Fit", className := "pdfo",
              title := "Embedded PDF", id := "", allow := none,
              typeAttr := some "application/pdf",
              styleCssText := some "overflow: auto;width: 100%; height: 100%;" }] :=
  ⟨C10_page_override envDesk doc0 dom0 "doc.pdf" (Sum.inr "#box") (some optsC10) 1
      (JSValue.num 3) (by decide) (by decide) (by decide) (by decide),
   by decide⟩

end Pdfo
